import Mathlib

/-
  Verification development for the wide-color context negotiator of
  src/image-view/src/main/cpp/WideColorCtx.cpp.

  The pure numeric helpers (fixed-point transform, gamma tables) are embedded
  directly; float/double arithmetic is modelled exactly over the rationals
  (the transform) and the reals (the gamma tables, which use pow).  The EGL
  platform calls are modelled as an outcome oracle (EGLWorld) together with a
  handle-allocation bookkeeping state (EGLResources), so that leak-freedom and
  rollback of the negotiator can be stated.
-/

/-- Modelled from the spec: the ranked wide-color mode enumeration
    WIDECOLOR_MODE is declared in ImageViewEngine.h, which is not in this
    repository snapshot; the constructor order follows the ranked rows of the
    appWideColorCfg / glWideColorCfg arrays, which the source indexes by
    mode. -/
inductive WIDECOLOR_MODE where
  | P3_PASSTHROUGH_R8G8B8A8_REV
  | P3_PASSTHROUGH_R10G10B10A2_REV
  | P3_PASSTHROUGH_FP16
  | P3_R8G8B8A8_REV
  | P3_R10G10B10A2_REV
  | P3_FP16
  | SRGBA_R8G8B8A8_REV
  deriving DecidableEq, Repr

/-- Modelled from the spec: the application-level colorspace classification
    DISPLAY_COLORSPACE (declared in a header outside this snapshot); the
    members used by the source are INVALID, SRGB, P3 and P3_PASSTHROUGH. -/
inductive DISPLAY_COLORSPACE where
  | INVALID
  | SRGB
  | P3
  | P3_PASSTHROUGH
  deriving DecidableEq, Repr

/-- Modelled from the spec: the application-level pixel-format classification
    DISPLAY_FORMAT (declared in a header outside this snapshot); the members
    used by the source are INVALID_FORMAT, R8G8B8A8_REV, R10G10B10_A2_REV and
    RGBA_FP16. -/
inductive DISPLAY_FORMAT where
  | INVALID_FORMAT
  | R8G8B8A8_REV
  | R10G10B10_A2_REV
  | RGBA_FP16
  deriving DecidableEq, Repr

/-- struct APP_WIDECOLOR_MODE_CFG from WideColorCtx.cpp. -/
structure APP_WIDECOLOR_MODE_CFG where
  space_ : DISPLAY_COLORSPACE
  fmt_ : DISPLAY_FORMAT
  deriving DecidableEq, Repr

/-- struct GL_WIDECOLOR_MODE_CFG from WideColorCtx.cpp (EGLint fields). -/
structure GL_WIDECOLOR_MODE_CFG where
  space_ : Int
  r_ : Int
  g_ : Int
  b_ : Int
  a_ : Int
  deriving DecidableEq, Repr

/-- Modelled from the spec: EGL token values; taken from the standard EGL
    headers, which are an external interface of the module. -/
def EGL_SURFACE_TYPE : Int := 0x3033

def EGL_WINDOW_BIT : Int := 0x0004

def EGL_RENDERABLE_TYPE : Int := 0x3040

def EGL_OPENGL_ES3_BIT : Int := 0x0040

def EGL_RED_SIZE : Int := 0x3024

def EGL_GREEN_SIZE : Int := 0x3023

def EGL_BLUE_SIZE : Int := 0x3022

def EGL_ALPHA_SIZE : Int := 0x3021

def EGL_NONE : Int := 0x3038

def EGL_COLOR_COMPONENT_TYPE_EXT : Int := 0x3339

def EGL_COLOR_COMPONENT_TYPE_FIXED_EXT : Int := 0x333A

def EGL_COLOR_COMPONENT_TYPE_FLOAT_EXT : Int := 0x333B

def EGL_GL_COLORSPACE_SRGB_KHR : Int := 0x3089

def EGL_GL_COLORSPACE_DISPLAY_P3_EXT : Int := 0x3363

def EGL_GL_COLORSPACE_DISPLAY_P3_PASSTHROUGH_EXT : Int := 0x3490

/-- The appWideColorCfg array, indexed by mode. -/
def appWideColorCfg : WIDECOLOR_MODE → APP_WIDECOLOR_MODE_CFG
  | .P3_PASSTHROUGH_R8G8B8A8_REV =>
      ⟨DISPLAY_COLORSPACE.P3_PASSTHROUGH, DISPLAY_FORMAT.R8G8B8A8_REV⟩
  | .P3_PASSTHROUGH_R10G10B10A2_REV =>
      ⟨DISPLAY_COLORSPACE.P3_PASSTHROUGH, DISPLAY_FORMAT.R10G10B10_A2_REV⟩
  | .P3_PASSTHROUGH_FP16 =>
      ⟨DISPLAY_COLORSPACE.P3_PASSTHROUGH, DISPLAY_FORMAT.RGBA_FP16⟩
  | .P3_R8G8B8A8_REV =>
      ⟨DISPLAY_COLORSPACE.P3, DISPLAY_FORMAT.R8G8B8A8_REV⟩
  | .P3_R10G10B10A2_REV =>
      ⟨DISPLAY_COLORSPACE.P3, DISPLAY_FORMAT.R10G10B10_A2_REV⟩
  | .P3_FP16 =>
      ⟨DISPLAY_COLORSPACE.P3, DISPLAY_FORMAT.RGBA_FP16⟩
  | .SRGBA_R8G8B8A8_REV =>
      ⟨DISPLAY_COLORSPACE.SRGB, DISPLAY_FORMAT.R8G8B8A8_REV⟩

/-- The glWideColorCfg array, indexed by mode. -/
def glWideColorCfg : WIDECOLOR_MODE → GL_WIDECOLOR_MODE_CFG
  | .P3_PASSTHROUGH_R8G8B8A8_REV =>
      ⟨EGL_GL_COLORSPACE_DISPLAY_P3_PASSTHROUGH_EXT, 8, 8, 8, 8⟩
  | .P3_PASSTHROUGH_R10G10B10A2_REV =>
      ⟨EGL_GL_COLORSPACE_DISPLAY_P3_PASSTHROUGH_EXT, 10, 10, 10, 2⟩
  | .P3_PASSTHROUGH_FP16 =>
      ⟨EGL_GL_COLORSPACE_DISPLAY_P3_PASSTHROUGH_EXT, 16, 16, 16, 16⟩
  | .P3_R8G8B8A8_REV =>
      ⟨EGL_GL_COLORSPACE_DISPLAY_P3_EXT, 8, 8, 8, 8⟩
  | .P3_R10G10B10A2_REV =>
      ⟨EGL_GL_COLORSPACE_DISPLAY_P3_EXT, 10, 10, 10, 2⟩
  | .P3_FP16 =>
      ⟨EGL_GL_COLORSPACE_DISPLAY_P3_EXT, 16, 16, 16, 16⟩
  | .SRGBA_R8G8B8A8_REV =>
      ⟨EGL_GL_COLORSPACE_SRGB_KHR, 8, 8, 8, 8⟩

/-- The configuration-request attribute vector built by
    CreateWideColorCtx(WIDECOLOR_MODE) (lines 349-366): surface type, API,
    channel sizes from glWideColorCfg[mode], then the component type (FLOAT
    when mode == P3_FP16, FIXED otherwise), then EGL_NONE. -/
def configAttributes (mode : WIDECOLOR_MODE) : List Int :=
  [ EGL_SURFACE_TYPE, EGL_WINDOW_BIT,
    EGL_RENDERABLE_TYPE, EGL_OPENGL_ES3_BIT,
    EGL_BLUE_SIZE, (glWideColorCfg mode).b_,
    EGL_GREEN_SIZE, (glWideColorCfg mode).g_,
    EGL_RED_SIZE, (glWideColorCfg mode).r_,
    EGL_ALPHA_SIZE, (glWideColorCfg mode).a_ ]
  ++ (if mode = WIDECOLOR_MODE.P3_FP16 then
        [ EGL_COLOR_COMPONENT_TYPE_EXT, EGL_COLOR_COMPONENT_TYPE_FLOAT_EXT ]
      else
        [ EGL_COLOR_COMPONENT_TYPE_EXT, EGL_COLOR_COMPONENT_TYPE_FIXED_EXT ])
  ++ [ EGL_NONE ]

/-- The CLIP_COLOR macro over the int32 values of TransformR8G8B8. -/
def CLIP_COLOR (color mx : Int) : Int :=
  if color > mx then mx else if color > 0 then color else 0

/-- Truncation toward zero, the semantics of a C static_cast to an integer
    type applied to a floating value. -/
def castTruncate (q : ℚ) : Int :=
  if 0 ≤ q then ⌊q⌋ else ⌈q⌉

/-- A 3x3 transform matrix; the float entries of mathfu::mat3 are modelled
    exactly as rationals. -/
structure Mat3 where
  m00 : ℚ
  m01 : ℚ
  m02 : ℚ
  m10 : ℚ
  m11 : ℚ
  m12 : ℚ
  m20 : ℚ
  m21 : ℚ
  m22 : ℚ
  deriving DecidableEq, Repr

/-- The identity 3x3 matrix. -/
def identityMat3 : Mat3 := ⟨1, 0, 0, 0, 1, 0, 0, 0, 1⟩

/-- Fixed-point conversion of one matrix coefficient in TransformR8G8B8:
    static_cast of coeff * 1024 + 0.5 to int32, i.e. truncation toward zero. -/
def fixedPointCoeff (c : ℚ) : Int :=
  castTruncate (c * 1024 + 0.5)

/-- One output channel of TransformR8G8B8 before clamping:
    (m0*src0 + m1*src1 + m2*src2 + 512) >> 10, where >> on a (possibly
    negative) int32 is the arithmetic shift, i.e. floor division by 1024. -/
def transformChannel (c0 c1 c2 : ℚ) (r g b : ℕ) : Int :=
  Int.fdiv (fixedPointCoeff c0 * r + fixedPointCoeff c1 * g
            + fixedPointCoeff c2 * b + 512) 1024

/-- TransformR8G8B8 (lines 92-116): fixed-point 3x3 transform of an 8-bit RGB
    triple with rounding bias 512 and clamping to 0..255, then the narrowing
    store to three unsigned bytes. -/
def TransformR8G8B8 (m : Mat3) (srcR srcG srcB : ℕ) : ℕ × ℕ × ℕ :=
  ((CLIP_COLOR (transformChannel m.m00 m.m01 m.m02 srcR srcG srcB) 255).toNat,
   (CLIP_COLOR (transformChannel m.m10 m.m11 m.m12 srcR srcG srcB) 255).toNat,
   (CLIP_COLOR (transformChannel m.m20 m.m21 m.m22 srcR srcG srcB) 255).toNat)

/-- The CLIP_COLOR macro over the double values of the gamma-table builders. -/
noncomputable def CLIP_COLOR_F (color mx : ℝ) : ℝ :=
  if color > mx then mx else if color > 0 then color else 0

/-- maxLinearVal of CreateGammaEncodeTable:
    static_cast to uint32 of 0.0031308f * 255. -/
noncomputable def maxLinearValEnc : ℕ :=
  Nat.floor ((0.0031308 : ℝ) * 255)

/-- maxLinearVal of CreateGammaDecodeTable:
    static_cast to uint32 of 0.04045 * 255. -/
noncomputable def maxLinearValDec : ℕ :=
  Nat.floor ((0.04045 : ℝ) * 255)

/-- Entry pushed by the linear segment of CreateGammaEncodeTable:
    static_cast to uint8 of idx * 12.92 + 0.5 (nonnegative, so floor). -/
noncomputable def gammaEncodeLow (idx : ℕ) : ℕ :=
  Nat.floor ((idx : ℝ) * 12.92 + 0.5)

/-- Entry pushed by the power segment of CreateGammaEncodeTable:
    static_cast to uint8 of CLIP_COLOR((1.055 * pow(idx/255, gamma) - 0.055)
    * 255 + 0.5, 255). -/
noncomputable def gammaEncodeHigh (gamma : ℝ) (idx : ℕ) : ℕ :=
  Nat.floor (CLIP_COLOR_F ((1.055 * ((idx : ℝ) / 255) ^ gamma - 0.055) * 255 + 0.5) 255)

/-- CreateGammaEncodeTable (lines 124-142).  It calls table.resize(0) first,
    so the prior contents of the output vector are discarded; the first loop
    runs for idx < maxLinearValEnc and the second for
    maxLinearValEnc <= idx <= 255. -/
noncomputable def CreateGammaEncodeTable (gamma : ℝ) (table : List ℕ) : List ℕ :=
  ((List.range maxLinearValEnc).map gammaEncodeLow)
    ++ ((List.range' maxLinearValEnc (256 - maxLinearValEnc)).map (gammaEncodeHigh gamma))

/-- Entry pushed by the linear segment of CreateGammaDecodeTable:
    static_cast to uint8 of idx / 12.92 + 0.5 (nonnegative, so floor). -/
noncomputable def gammaDecodeLow (idx : ℕ) : ℕ :=
  Nat.floor ((idx : ℝ) / 12.92 + 0.5)

/-- Entry pushed by the power segment of CreateGammaDecodeTable:
    static_cast to uint8 of CLIP_COLOR(pow((idx/255 + 0.055) / 1.055, gamma)
    * 255 + 0.5, 255). -/
noncomputable def gammaDecodeHigh (gamma : ℝ) (idx : ℕ) : ℕ :=
  Nat.floor (CLIP_COLOR_F ((((idx : ℝ) / 255 + 0.055) / 1.055) ^ gamma * 255 + 0.5) 255)

/-- CreateGammaDecodeTable (lines 149-166).  Unlike the encode builder it does
    NOT resize the output vector, so its 256 push_back calls append after any
    prior contents. -/
noncomputable def CreateGammaDecodeTable (gamma : ℝ) (table : List ℕ) : List ℕ :=
  table
    ++ ((List.range maxLinearValDec).map gammaDecodeLow)
    ++ ((List.range' maxLinearValDec (256 - maxLinearValDec)).map (gammaDecodeHigh gamma))

/-- Byte-wise prefix test over character lists, the first step of modelling
    std::string::find. -/
def strStartsWith : List Char → List Char → Bool
  | [], _ => true
  | _ :: _, [] => false
  | a :: as, b :: bs => a == b && strStartsWith as bs

/-- Substring search over character lists: true when the pattern occurs at
    some position of the subject, i.e. std::string::find(...) != npos. -/
def strFindSub (sub : List Char) : List Char → Bool
  | [] => strStartsWith sub []
  | c :: rest => strStartsWith sub (c :: rest) || strFindSub sub rest

/-- Substring containment on strings, modelling eglExt.find(ext) != npos. -/
def strContainsB (hay sub : String) : Bool :=
  strFindSub sub.toList hay.toList

/-- CheckRequiredEGLExt (lines 72-81): queries the extension string once and
    requires every listed token to occur as a substring, returning false at
    the first miss. -/
def CheckRequiredEGLExt (eglExt : String) (exts : List String) : Bool :=
  exts.all (fun ext => strContainsB eglExt ext)

/-- The passthruExt token list of CreateWideColorCtx(void). -/
def passthruExt : List String :=
  [ "EGL_KHR_gl_colorspace", "GL_EXT_gl_colorspace_display_p3_passthrough" ]

/-- The p3Exts token list of CreateWideColorCtx(void). -/
def p3Exts : List String :=
  [ "EGL_KHR_gl_colorspace", "EGL_EXT_gl_colorspace_display_p3" ]

/-- DisplayContextState: the engine fields touched by the negotiator.  EGL
    handles are modelled as naturals with 0 standing for the EGL_NO_DISPLAY /
    EGL_NO_CONTEXT / EGL_NO_SURFACE null sentinels. -/
structure DisplayContextState where
  display_ : ℕ
  eglContext_ : ℕ
  surface_ : ℕ
  dispColorSpace_ : DISPLAY_COLORSPACE
  dispFormat_ : DISPLAY_FORMAT
  renderTargetWidth_ : Int
  renderTargetHeight_ : Int
  deriving DecidableEq, Repr

/-- Modelled from the spec: the uninitialized engine state (sentinel handles,
    INVALID colorspace and format); the member initializers live in
    ImageViewEngine.h, outside this snapshot. -/
def initState : DisplayContextState :=
  { display_ := 0, eglContext_ := 0, surface_ := 0,
    dispColorSpace_ := DISPLAY_COLORSPACE.INVALID,
    dispFormat_ := DISPLAY_FORMAT.INVALID_FORMAT,
    renderTargetWidth_ := 0, renderTargetHeight_ := 0 }

/-- Outcome oracle for the EGL platform calls: which per-mode steps succeed
    (configuration match with exactly one config, context creation, window
    buffer geometry, window surface creation), plus the display handle, the
    advertised extension string and the realized surface size. -/
structure EGLWorld where
  displayHandle : ℕ
  eglExtString : String
  chooseConfigOk : WIDECOLOR_MODE → Bool
  createContextOk : WIDECOLOR_MODE → Bool
  setBuffersGeometryOk : WIDECOLOR_MODE → Bool
  createSurfaceOk : WIDECOLOR_MODE → Bool
  surfaceWidth : Int
  surfaceHeight : Int

/-- Handle bookkeeping for the platform: an allocation counter per resource
    kind, the lists of live (created and not destroyed) handles, and the
    currently bound context/surface pair (0,0 when unbound). -/
structure EGLResources where
  nextCtx : ℕ
  liveCtxs : List ℕ
  nextSurf : ℕ
  liveSurfs : List ℕ
  boundCtx : ℕ
  boundSurf : ℕ
  deriving DecidableEq, Repr

/-- Fresh resource bookkeeping: nothing allocated, nothing bound. -/
def initResources : EGLResources :=
  { nextCtx := 0, liveCtxs := [], nextSurf := 0, liveSurfs := [],
    boundCtx := 0, boundSurf := 0 }

/-- CreateWideColorCtx(WIDECOLOR_MODE) (lines 349-423), the per-mode TryCreate.
    The demo/logging preamble of the function (color matrices, gamma lookups
    and the brute-force logging loop, lines 195-347) only writes locals and
    the log, so it has no effect on the engine state and is not modelled.
    Steps, in source order: eglChooseConfig must match exactly one config;
    eglCreateContext stores its result (0 = EGL_NO_CONTEXT on failure) into
    eglContext_; ANativeWindow_setBuffersGeometry failure destroys the new
    context and resets eglContext_; eglCreateWindowSurface stores its result
    (0 = EGL_NO_SURFACE on failure) into surface_, failure again destroying
    the context; on success eglMakeCurrent binds the pair (asserted to
    succeed) and AppModeConfig[mode] plus the queried surface size are
    recorded. -/
def CreateWideColorCtxMode (w : EGLWorld) (mode : WIDECOLOR_MODE)
    (s : DisplayContextState) (r : EGLResources) :
    Bool × DisplayContextState × EGLResources :=
  if w.chooseConfigOk mode = false then
    (false, s, r)
  else if w.createContextOk mode = false then
    (false, { s with eglContext_ := 0 }, r)
  else
    let ctx := r.nextCtx + 1
    let r1 : EGLResources := { r with nextCtx := ctx, liveCtxs := ctx :: r.liveCtxs }
    let s1 : DisplayContextState := { s with eglContext_ := ctx }
    if w.setBuffersGeometryOk mode = false then
      (false, { s1 with eglContext_ := 0 },
       { r1 with liveCtxs := r1.liveCtxs.erase ctx })
    else if w.createSurfaceOk mode = false then
      (false, { s1 with surface_ := 0, eglContext_ := 0 },
       { r1 with liveCtxs := r1.liveCtxs.erase ctx })
    else
      let surf := r1.nextSurf + 1
      let r2 : EGLResources :=
        { r1 with nextSurf := surf, liveSurfs := surf :: r1.liveSurfs,
                  boundCtx := ctx, boundSurf := surf }
      (true,
       { s1 with surface_ := surf,
                 dispColorSpace_ := (appWideColorCfg mode).space_,
                 dispFormat_ := (appWideColorCfg mode).fmt_,
                 renderTargetWidth_ := w.surfaceWidth,
                 renderTargetHeight_ := w.surfaceHeight },
       r2)

/-- Whether a single TryCreate attempt succeeds; this depends only on the
    oracle and the mode, never on the prior engine state. -/
def tryCreateSucceeds (w : EGLWorld) (mode : WIDECOLOR_MODE) : Bool :=
  w.chooseConfigOk mode && w.createContextOk mode
    && w.setBuffersGeometryOk mode && w.createSurfaceOk mode

/-- The fallback loop of CreateWideColorCtx(void): try each mode in order and
    stop at the first success. -/
def tryModes (w : EGLWorld) :
    List WIDECOLOR_MODE → DisplayContextState → EGLResources →
    Bool × DisplayContextState × EGLResources
  | [], s, r => (false, s, r)
  | m :: rest, s, r =>
    let t := CreateWideColorCtxMode w m s r
    if t.1 then t else tryModes w rest t.2.1 t.2.2

/-- The default ranked mode array of CreateWideColorCtx(void). -/
def defaultModes : List WIDECOLOR_MODE :=
  [ WIDECOLOR_MODE.P3_R8G8B8A8_REV, WIDECOLOR_MODE.P3_R10G10B10A2_REV,
    WIDECOLOR_MODE.P3_FP16, WIDECOLOR_MODE.SRGBA_R8G8B8A8_REV ]

/-- The ranked mode array after the passthrough extension check rewrites its
    first three entries. -/
def passthruModes : List WIDECOLOR_MODE :=
  [ WIDECOLOR_MODE.P3_PASSTHROUGH_R8G8B8A8_REV,
    WIDECOLOR_MODE.P3_PASSTHROUGH_R10G10B10A2_REV,
    WIDECOLOR_MODE.P3_PASSTHROUGH_FP16,
    WIDECOLOR_MODE.SRGBA_R8G8B8A8_REV ]

/-- The mode chain actually attempted by CreateWideColorCtx(void) given the
    advertised extensions. -/
def selectedChain (w : EGLWorld) : List WIDECOLOR_MODE :=
  if CheckRequiredEGLExt w.eglExtString passthruExt then passthruModes
  else if CheckRequiredEGLExt w.eglExtString p3Exts = false then
    [ WIDECOLOR_MODE.SRGBA_R8G8B8A8_REV ]
  else defaultModes

/-- CreateWideColorCtx(void) (lines 425-490), the best-effort entry point:
    opens the display, selects the chain by the extension checks (the
    no-extension branch directly calls the legacy single-mode creation), then
    iterates the per-mode creation until the first success. -/
def CreateWideColorCtxAuto (w : EGLWorld) (s : DisplayContextState)
    (r : EGLResources) : Bool × DisplayContextState × EGLResources :=
  let s0 : DisplayContextState := { s with display_ := w.displayHandle }
  if CheckRequiredEGLExt w.eglExtString passthruExt then
    tryModes w passthruModes s0 r
  else if CheckRequiredEGLExt w.eglExtString p3Exts = false then
    CreateWideColorCtxMode w WIDECOLOR_MODE.SRGBA_R8G8B8A8_REV s0 r
  else
    tryModes w defaultModes s0 r

/-- DestroyWideColorCtx (lines 492-513): no-op when the display is already
    closed; otherwise unbind (eglMakeCurrent with no surface/context), destroy
    the context and the surface when present, terminate the display and reset
    display_, eglContext_, surface_, dispColorSpace_ and dispFormat_ to their
    sentinels.  renderTargetWidth_ / renderTargetHeight_ are not touched. -/
def DestroyWideColorCtx (s : DisplayContextState) (r : EGLResources) :
    DisplayContextState × EGLResources :=
  if s.display_ = 0 then (s, r)
  else
    let r0 : EGLResources := { r with boundCtx := 0, boundSurf := 0 }
    let r1 : EGLResources :=
      if s.eglContext_ ≠ 0 then { r0 with liveCtxs := r0.liveCtxs.erase s.eglContext_ }
      else r0
    let r2 : EGLResources :=
      if s.surface_ ≠ 0 then { r1 with liveSurfs := r1.liveSurfs.erase s.surface_ }
      else r1
    ({ s with display_ := 0, eglContext_ := 0, surface_ := 0,
              dispColorSpace_ := DISPLAY_COLORSPACE.INVALID,
              dispFormat_ := DISPLAY_FORMAT.INVALID_FORMAT },
     r2)

/-- A torn-down engine state: sentinel context and surface handles and the
    INVALID colorspace/format classification. -/
def UninitCtx (s : DisplayContextState) : Prop :=
  s.eglContext_ = 0 ∧ s.surface_ = 0 ∧
    s.dispColorSpace_ = DISPLAY_COLORSPACE.INVALID ∧
    s.dispFormat_ = DISPLAY_FORMAT.INVALID_FORMAT

/-- The claimed state invariant: context and surface handles are both
    sentinels or both valid, and the colorspace/format classification is
    INVALID unless a surface is live. -/
def WCInvariant (s : DisplayContextState) : Prop :=
  (s.eglContext_ = 0 ↔ s.surface_ = 0) ∧
    (s.surface_ = 0 →
      s.dispColorSpace_ = DISPLAY_COLORSPACE.INVALID ∧
        s.dispFormat_ = DISPLAY_FORMAT.INVALID_FORMAT)

/-- States reachable through the public operations under the intended
    lifecycle discipline: a creation entry point is only invoked on a
    torn-down state (fresh engine, or after DestroyWideColorCtx). -/
inductive ReachableLifecycle : DisplayContextState → EGLResources → Prop where
  | init : ReachableLifecycle initState initResources
  | destroy (s : DisplayContextState) (r : EGLResources) :
      ReachableLifecycle s r →
      ReachableLifecycle (DestroyWideColorCtx s r).1 (DestroyWideColorCtx s r).2
  | tryCreate (w : EGLWorld) (m : WIDECOLOR_MODE) (s : DisplayContextState)
      (r : EGLResources) :
      ReachableLifecycle s r → UninitCtx s →
      ReachableLifecycle (CreateWideColorCtxMode w m s r).2.1
        (CreateWideColorCtxMode w m s r).2.2
  | bestEffort (w : EGLWorld) (s : DisplayContextState) (r : EGLResources) :
      ReachableLifecycle s r → UninitCtx s →
      ReachableLifecycle (CreateWideColorCtxAuto w s r).2.1
        (CreateWideColorCtxAuto w s r).2.2

/-- An oracle on which every platform step fails (and no extensions are
    advertised); used to exercise the failure branches concretely. -/
def worldAllFail : EGLWorld :=
  { displayHandle := 1, eglExtString := "",
    chooseConfigOk := fun _ => false, createContextOk := fun _ => false,
    setBuffersGeometryOk := fun _ => false, createSurfaceOk := fun _ => false,
    surfaceWidth := 0, surfaceHeight := 0 }

/-- An oracle on which every platform step succeeds except context creation
    for the 10-bit P3 mode; used to exhibit the effect of re-running TryCreate
    on an already-created engine. -/
def worldCtxFailOn1010102 : EGLWorld :=
  { displayHandle := 1, eglExtString := "",
    chooseConfigOk := fun _ => true,
    createContextOk := fun m =>
      match m with
      | WIDECOLOR_MODE.P3_R10G10B10A2_REV => false
      | _ => true,
    setBuffersGeometryOk := fun _ => true, createSurfaceOk := fun _ => true,
    surfaceWidth := 640, surfaceHeight := 480 }

/-- The engine state after a successful best-effort creation followed by a
    second TryCreate attempt (on the 10-bit P3 mode) whose context creation
    fails — a sequence of two public operations. -/
def recreateAttemptState : DisplayContextState :=
  (CreateWideColorCtxMode worldCtxFailOn1010102 WIDECOLOR_MODE.P3_R10G10B10A2_REV
    (CreateWideColorCtxAuto worldCtxFailOn1010102 initState initResources).2.1
    (CreateWideColorCtxAuto worldCtxFailOn1010102 initState initResources).2.2).2.1

/-! ## Helper lemmas -/

/-- CLIP_COLOR stays within the clamp range. -/
theorem CLIP_COLOR_bounds (c mx : Int) (h : 0 ≤ mx) :
    0 ≤ CLIP_COLOR c mx ∧ CLIP_COLOR c mx ≤ mx := by
  unfold CLIP_COLOR
  split_ifs <;> omega

/-- Fixed-point conversion of the coefficient 1. -/
theorem fixedPointCoeff_one : fixedPointCoeff 1 = 1024 := by
  norm_num [fixedPointCoeff, castTruncate]

/-- Fixed-point conversion of the coefficient 0. -/
theorem fixedPointCoeff_zero : fixedPointCoeff 0 = 0 := by
  norm_num [fixedPointCoeff, castTruncate]

/-- A channel of the identity transform reproduces its source byte before
    clamping. -/
theorem identity_channel_eq (x : ℕ) :
    Int.fdiv (1024 * (x : Int) + 512) 1024 = (x : Int) := by
  rw [Int.fdiv_eq_ediv _ (by norm_num)]
  omega

/-! ## C8 -/

/-- C8: TransformR8G8B8 applied with the 3x3 identity matrix returns exactly
    the input bytes: the fixed-point conversion of the identity matrix
    followed by the (+512) >> 10 rounding reproduces every 8-bit input. -/
theorem transform_identity_exact (r g b : ℕ)
    (hr : r < 256) (hg : g < 256) (hb : b < 256) :
    TransformR8G8B8 identityMat3 r g b = (r, g, b) := by
  have hch : ∀ x y z : ℕ, x < 256 →
      (CLIP_COLOR (transformChannel 1 0 0 x y z) 255).toNat = x := by
    intro x y z hx
    unfold transformChannel
    rw [fixedPointCoeff_one, fixedPointCoeff_zero]
    have h1 : (1024 * (x : Int) + 0 * (y : Int) + 0 * (z : Int) + 512)
        = 1024 * (x : Int) + 512 := by ring
    rw [h1, identity_channel_eq]
    unfold CLIP_COLOR
    split_ifs <;> omega
  have hch2 : ∀ x y z : ℕ, y < 256 →
      (CLIP_COLOR (transformChannel 0 1 0 x y z) 255).toNat = y := by
    intro x y z hy
    unfold transformChannel
    rw [fixedPointCoeff_one, fixedPointCoeff_zero]
    have h1 : (0 * (x : Int) + 1024 * (y : Int) + 0 * (z : Int) + 512)
        = 1024 * (y : Int) + 512 := by ring
    rw [h1, identity_channel_eq]
    unfold CLIP_COLOR
    split_ifs <;> omega
  have hch3 : ∀ x y z : ℕ, z < 256 →
      (CLIP_COLOR (transformChannel 0 0 1 x y z) 255).toNat = z := by
    intro x y z hz
    unfold transformChannel
    rw [fixedPointCoeff_one, fixedPointCoeff_zero]
    have h1 : (0 * (x : Int) + 0 * (y : Int) + 1024 * (z : Int) + 512)
        = 1024 * (z : Int) + 512 := by ring
    rw [h1, identity_channel_eq]
    unfold CLIP_COLOR
    split_ifs <;> omega
  show ((CLIP_COLOR (transformChannel 1 0 0 r g b) 255).toNat,
        (CLIP_COLOR (transformChannel 0 1 0 r g b) 255).toNat,
        (CLIP_COLOR (transformChannel 0 0 1 r g b) 255).toNat) = (r, g, b)
  rw [hch r g b hr, hch2 r g b hg, hch3 r g b hb]

/-- Witness for C8 at the concrete input (12, 34, 56). -/
theorem transform_identity_exact_witness :
    TransformR8G8B8 identityMat3 12 34 56 = (12, 34, 56) :=
  transform_identity_exact 12 34 56 (by norm_num) (by norm_num) (by norm_num)

/-! ## C9 -/

/-- C9: for every 3x3 matrix and all byte inputs, each of the three output
    channels of TransformR8G8B8 lies within 0..255 before the narrowing store
    to an unsigned byte, even for matrices whose unclamped fixed-point
    accumulation falls outside that range. -/
theorem transform_channels_clamped (m : Mat3) (r g b : ℕ)
    (hr : r < 256) (hg : g < 256) (hb : b < 256) :
    (0 ≤ CLIP_COLOR (transformChannel m.m00 m.m01 m.m02 r g b) 255 ∧
      CLIP_COLOR (transformChannel m.m00 m.m01 m.m02 r g b) 255 ≤ 255) ∧
    (0 ≤ CLIP_COLOR (transformChannel m.m10 m.m11 m.m12 r g b) 255 ∧
      CLIP_COLOR (transformChannel m.m10 m.m11 m.m12 r g b) 255 ≤ 255) ∧
    (0 ≤ CLIP_COLOR (transformChannel m.m20 m.m21 m.m22 r g b) 255 ∧
      CLIP_COLOR (transformChannel m.m20 m.m21 m.m22 r g b) 255 ≤ 255) ∧
    (TransformR8G8B8 m r g b).1 ≤ 255 ∧
    (TransformR8G8B8 m r g b).2.1 ≤ 255 ∧
    (TransformR8G8B8 m r g b).2.2 ≤ 255 := by
  have h1 := CLIP_COLOR_bounds (transformChannel m.m00 m.m01 m.m02 r g b) 255 (by norm_num)
  have h2 := CLIP_COLOR_bounds (transformChannel m.m10 m.m11 m.m12 r g b) 255 (by norm_num)
  have h3 := CLIP_COLOR_bounds (transformChannel m.m20 m.m21 m.m22 r g b) 255 (by norm_num)
  refine ⟨h1, h2, h3, ?_, ?_, ?_⟩ <;> simp only [TransformR8G8B8] <;> omega

/-- Witness for C9 at a matrix whose unclamped accumulation overflows both
    ends of the byte range. -/
theorem transform_channels_clamped_witness :
    (TransformR8G8B8 (⟨40, 40, 40, -40, -40, -40, 40, 40, 40⟩ : Mat3) 255 255 255).1 ≤ 255 :=
  (transform_channels_clamped ⟨40, 40, 40, -40, -40, -40, 40, 40, 40⟩ 255 255 255
    (by norm_num) (by norm_num) (by norm_num)).2.2.2.1

/-! ## C10 -/

/-- C10 counterexample: for the negative coefficient -0.4 the code computes
    the int32 cast of -0.4 * 1024 + 0.5 = -409.1, which truncates toward zero
    to -409, while the nearest integer to -0.4 * 1024 = -409.6 is -410. -/
theorem fixedPointCoeff_neg_not_round :
    fixedPointCoeff (-2/5) = -409 ∧ round ((-2/5 : ℚ) * 1024) = -410 := by
  constructor
  · unfold fixedPointCoeff castTruncate
    rw [if_neg (by norm_num)]
    rw [Int.ceil_eq_iff]
    constructor <;> norm_num
  · rw [round_eq]
    norm_num

/-- C10 (amended): the coefficient conversion is the int32 cast (truncation
    toward zero) of coeff * 1024 + 0.5; for every nonnegative coefficient this
    equals round(coeff * 1024), the nearest integer with ties away from zero,
    but for negative coefficients it may differ from the nearest integer. -/
theorem fixedPointCoeff_round_of_nonneg (c : ℚ) (hc : 0 ≤ c) :
    fixedPointCoeff c = round (c * 1024) := by
  unfold fixedPointCoeff castTruncate
  rw [if_pos (by positivity), round_eq]
  norm_num

/-- Witness for the amended C10 at the coefficient 3/2. -/
theorem fixedPointCoeff_round_of_nonneg_witness :
    fixedPointCoeff (3/2) = round ((3/2 : ℚ) * 1024) :=
  fixedPointCoeff_round_of_nonneg (3/2) (by norm_num)

/-! ## C1 -/

/-- C1: the passthrough FP16 mode requests the 16-bit half-float channel
    depths of glWideColorCfg but is still given component type FIXED: only
    P3_FP16 receives component type FLOAT, contradicting the claim (and the
    function comment, which documents FLOAT for the 16161616 layout). -/
theorem configAttributes_passthrough_fp16_fixed :
    (glWideColorCfg WIDECOLOR_MODE.P3_PASSTHROUGH_FP16).r_ = 16 ∧
    (glWideColorCfg WIDECOLOR_MODE.P3_PASSTHROUGH_FP16).a_ = 16 ∧
    EGL_COLOR_COMPONENT_TYPE_FIXED_EXT ∈
      configAttributes WIDECOLOR_MODE.P3_PASSTHROUGH_FP16 ∧
    EGL_COLOR_COMPONENT_TYPE_FLOAT_EXT ∉
      configAttributes WIDECOLOR_MODE.P3_PASSTHROUGH_FP16 ∧
    EGL_COLOR_COMPONENT_TYPE_FLOAT_EXT ∈
      configAttributes WIDECOLOR_MODE.P3_FP16 := by
  refine ⟨rfl, rfl, ?_, ?_, ?_⟩ <;> decide

/-! ## Gamma-table helper lemmas -/

/-- The encode breakpoint truncates to 0: floor(0.0031308 * 255) = 0. -/
theorem maxLinearValEnc_eq : maxLinearValEnc = 0 := by
  unfold maxLinearValEnc
  rw [Nat.floor_eq_zero]
  norm_num

/-- The decode breakpoint truncates to 10: floor(0.04045 * 255) = 10. -/
theorem maxLinearValDec_eq : maxLinearValDec = 10 := by
  unfold maxLinearValDec
  rw [Nat.floor_eq_iff (by positivity)]
  norm_num

/-- The encode builder always emits exactly 256 entries (it clears the output
    vector first and its linear segment is empty). -/
theorem CreateGammaEncodeTable_len (gamma : ℝ) (t : List ℕ) :
    (CreateGammaEncodeTable gamma t).length = 256 := by
  unfold CreateGammaEncodeTable
  rw [maxLinearValEnc_eq]
  simp

/-- The decode builder appends exactly 256 entries after the prior contents. -/
theorem CreateGammaDecodeTable_len (gamma : ℝ) (t : List ℕ) :
    (CreateGammaDecodeTable gamma t).length = t.length + 256 := by
  unfold CreateGammaDecodeTable
  rw [maxLinearValDec_eq]
  simp

/-- Every entry of the encode table is a power-segment entry (the linear
    segment is empty because the breakpoint truncates to 0). -/
theorem encodeTable_getD (gamma : ℝ) (t : List ℕ) (i : ℕ) (hi : i < 256) :
    (CreateGammaEncodeTable gamma t).getD i 0 = gammaEncodeHigh gamma i := by
  unfold CreateGammaEncodeTable
  rw [maxLinearValEnc_eq]
  simp only [List.range_zero, List.map_nil, List.nil_append, Nat.sub_zero]
  rw [← List.range_eq_range', List.getD_eq_getElem?_getD, List.getElem?_map,
    List.getElem?_range hi]
  rfl

/-- CLIP_COLOR over the reals is monotone in its input. -/
theorem CLIP_COLOR_F_mono {a b mx : ℝ} (hmx : 0 ≤ mx) (hab : a ≤ b) :
    CLIP_COLOR_F a mx ≤ CLIP_COLOR_F b mx := by
  unfold CLIP_COLOR_F
  split_ifs <;> linarith

/-- The power-segment entries of the encode table are monotone in the index
    for a nonnegative gamma. -/
theorem gammaEncodeHigh_mono {gamma : ℝ} (hg : 0 ≤ gamma) {i j : ℕ}
    (hij : i ≤ j) : gammaEncodeHigh gamma i ≤ gammaEncodeHigh gamma j := by
  unfold gammaEncodeHigh
  apply Nat.floor_le_floor
  apply CLIP_COLOR_F_mono (by norm_num)
  have hx : ((i : ℝ) / 255) ≤ ((j : ℝ) / 255) := by
    gcongr
  have hp : ((i : ℝ) / 255) ^ gamma ≤ ((j : ℝ) / 255) ^ gamma :=
    Real.rpow_le_rpow (by positivity) hx hg
  linarith

/-- For a positive gamma the first encode entry is 0 (the power term
    vanishes and the clamp floors the negative offset at 0). -/
theorem gammaEncodeHigh_zero {gamma : ℝ} (hg : 0 < gamma) :
    gammaEncodeHigh gamma 0 = 0 := by
  unfold gammaEncodeHigh
  rw [Nat.cast_zero, zero_div, Real.zero_rpow hg.ne']
  unfold CLIP_COLOR_F
  rw [if_neg (by norm_num), if_neg (by norm_num)]
  exact Nat.floor_zero

/-- The last encode entry is 255 for any gamma: pow(1, gamma) = 1 and the
    clamp caps 255.5 at 255. -/
theorem gammaEncodeHigh_top (gamma : ℝ) : gammaEncodeHigh gamma 255 = 255 := by
  unfold gammaEncodeHigh
  have h : ((255 : ℕ) : ℝ) / 255 = 1 := by norm_num
  rw [h, Real.one_rpow]
  unfold CLIP_COLOR_F
  rw [if_pos (by norm_num)]
  norm_num

/-! ## C6 -/

/-- C6 counterexample: CreateGammaDecodeTable does not clear the output
    vector, so given a table that already holds one entry it produces 257
    entries, not 256. -/
theorem decode_table_keeps_prior_contents :
    (CreateGammaDecodeTable 2 [ 0 ]).length ≠ 256 := by
  rw [CreateGammaDecodeTable_len]
  norm_num

/-- C6 (amended): for every gamma satisfying its precondition,
    CreateGammaEncodeTable produces exactly 256 entries regardless of the
    prior contents of the output table (it clears the table first), while
    CreateGammaDecodeTable appends exactly 256 entries after the prior
    contents, so it produces a 256-entry table exactly when the given table
    is empty. -/
theorem gamma_tables_entry_counts (ge gd : ℝ) (t : List ℕ)
    (hge : ge < 1) (hgd : 1 < gd) :
    (CreateGammaEncodeTable ge t).length = 256 ∧
    (CreateGammaDecodeTable gd []).length = 256 ∧
    (CreateGammaDecodeTable gd t).length = t.length + 256 := by
  refine ⟨CreateGammaEncodeTable_len ge t, ?_, CreateGammaDecodeTable_len gd t⟩
  rw [CreateGammaDecodeTable_len]
  rfl

/-- Witness for the amended C6 at gamma 1/2.2 (encode), 2.2 (decode) and a
    nonempty prior table. -/
theorem gamma_tables_entry_counts_witness :
    (CreateGammaEncodeTable (1/2.2 : ℝ) [ 7 ]).length = 256 ∧
    (CreateGammaDecodeTable (2.2 : ℝ) []).length = 256 ∧
    (CreateGammaDecodeTable (2.2 : ℝ) [ 7 ]).length = [ 7 ].length + 256 :=
  gamma_tables_entry_counts (1/2.2) 2.2 [ 7 ] (by norm_num) (by norm_num)

/-! ## C7 -/

/-- C7 counterexample: gamma = 0 satisfies the stated precondition
    gamma < 1.0, but pow(0, 0) = 1 makes the first encode entry 255, not 0. -/
theorem encode_gamma_zero_first_entry :
    (0 : ℝ) < 1 ∧ (CreateGammaEncodeTable 0 []).getD 0 0 = 255 := by
  refine ⟨by norm_num, ?_⟩
  rw [encodeTable_getD 0 [] 0 (by norm_num)]
  unfold gammaEncodeHigh
  rw [Nat.cast_zero, zero_div, Real.rpow_zero]
  unfold CLIP_COLOR_F
  rw [if_pos (by norm_num)]
  norm_num

/-- C7 (amended): for every gamma strictly between 0 and 1 the 256-entry
    encode table is monotonically non-decreasing, its entry at index 0 is 0
    and its entry at index 255 is 255. -/
theorem encode_table_monotone_endpoints (gamma : ℝ)
    (h0 : 0 < gamma) (h1 : gamma < 1) :
    (∀ i j : ℕ, i ≤ j → j < 256 →
      (CreateGammaEncodeTable gamma []).getD i 0
        ≤ (CreateGammaEncodeTable gamma []).getD j 0) ∧
    (CreateGammaEncodeTable gamma []).getD 0 0 = 0 ∧
    (CreateGammaEncodeTable gamma []).getD 255 0 = 255 := by
  refine ⟨?_, ?_, ?_⟩
  · intro i j hij hj
    rw [encodeTable_getD _ _ i (lt_of_le_of_lt hij hj), encodeTable_getD _ _ j hj]
    exact gammaEncodeHigh_mono h0.le hij
  · rw [encodeTable_getD _ _ 0 (by norm_num)]
    exact gammaEncodeHigh_zero h0
  · rw [encodeTable_getD _ _ 255 (by norm_num)]
    exact gammaEncodeHigh_top gamma

/-- Witness for the amended C7 at gamma 1/2. -/
theorem encode_table_monotone_endpoints_witness :
    (CreateGammaEncodeTable (1/2 : ℝ) []).getD 0 0 = 0 ∧
    (CreateGammaEncodeTable (1/2 : ℝ) []).getD 255 0 = 255 :=
  ⟨(encode_table_monotone_endpoints (1/2) (by norm_num) (by norm_num)).2.1,
   (encode_table_monotone_endpoints (1/2) (by norm_num) (by norm_num)).2.2⟩

/-! ## Context-negotiator helper lemmas -/

/-- When a per-mode creation attempt fails, the engine state is exactly the
    entry state (given sentinel handles at entry) and the live handle lists
    are unchanged. -/
theorem createMode_fail_aux (w : EGLWorld) (m : WIDECOLOR_MODE)
    (s : DisplayContextState) (r : EGLResources)
    (hc : s.eglContext_ = 0) (hs : s.surface_ = 0)
    (hf : (CreateWideColorCtxMode w m s r).1 = false) :
    (CreateWideColorCtxMode w m s r).2.1 = s ∧
    (CreateWideColorCtxMode w m s r).2.2.liveCtxs = r.liveCtxs ∧
    (CreateWideColorCtxMode w m s r).2.2.liveSurfs = r.liveSurfs := by
  obtain ⟨d, c, sf, cs, fm, wd, ht⟩ := s
  dsimp only at hc hs
  subst hc
  subst hs
  unfold CreateWideColorCtxMode at hf ⊢
  split_ifs at hf ⊢ <;> simp_all [List.erase_cons_head]

/-- When a per-mode creation attempt succeeds, the resulting state holds a
    nonzero context handle and a nonzero surface handle. -/
theorem createMode_success_aux (w : EGLWorld) (m : WIDECOLOR_MODE)
    (s : DisplayContextState) (r : EGLResources)
    (hf : (CreateWideColorCtxMode w m s r).1 = true) :
    (CreateWideColorCtxMode w m s r).2.1.eglContext_ ≠ 0 ∧
    (CreateWideColorCtxMode w m s r).2.1.surface_ ≠ 0 := by
  unfold CreateWideColorCtxMode at hf ⊢
  split_ifs at hf ⊢ <;> simp_all

/-- The outcome of a per-mode creation attempt depends only on the platform
    oracle and the mode. -/
theorem createMode_bool (w : EGLWorld) (m : WIDECOLOR_MODE)
    (s : DisplayContextState) (r : EGLResources) :
    (CreateWideColorCtxMode w m s r).1 = tryCreateSucceeds w m := by
  unfold CreateWideColorCtxMode tryCreateSucceeds
  cases h1 : w.chooseConfigOk m <;> cases h2 : w.createContextOk m <;>
    cases h3 : w.setBuffersGeometryOk m <;> cases h4 : w.createSurfaceOk m <;>
      simp [h1, h2, h3, h4]

/-- The fallback loop returns true exactly when some mode of the list has a
    succeeding attempt (it stops at the first). -/
theorem tryModes_bool (w : EGLWorld) (ms : List WIDECOLOR_MODE) :
    ∀ (s : DisplayContextState) (r : EGLResources),
      (tryModes w ms s r).1 = ms.any (tryCreateSucceeds w) := by
  induction ms with
  | nil => intro s r; rfl
  | cons m rest ih =>
    intro s r
    have hb := createMode_bool w m s r
    unfold tryModes
    dsimp only
    cases hx : (CreateWideColorCtxMode w m s r).1 with
    | true =>
      rw [List.any_cons, ← hb, hx]
      simp [hx]
    | false =>
      rw [List.any_cons, ← hb, hx, Bool.false_or]
      simp only [hx, Bool.false_eq_true, if_false]
      exact ih _ _

/-! ## C2 -/

/-- C2: a per-mode TryCreate that fails at any non-fatal step (configuration
    match, context creation, window geometry, surface creation) returns false
    with the DisplayContextState unchanged — the context and surface fields
    still hold their sentinels — and leaves no context or surface handle
    created by the attempt live. -/
theorem tryCreate_failure_rolls_back (w : EGLWorld) (m : WIDECOLOR_MODE)
    (s : DisplayContextState) (r : EGLResources)
    (hc : s.eglContext_ = 0) (hs : s.surface_ = 0)
    (hf : (CreateWideColorCtxMode w m s r).1 = false) :
    (CreateWideColorCtxMode w m s r).2.1 = s ∧
    (CreateWideColorCtxMode w m s r).2.2.liveCtxs = r.liveCtxs ∧
    (CreateWideColorCtxMode w m s r).2.2.liveSurfs = r.liveSurfs :=
  createMode_fail_aux w m s r hc hs hf

/-- Witness for C2: a platform refusing every step leaves the fresh engine
    state and the empty live-handle lists untouched. -/
theorem tryCreate_failure_rolls_back_witness :
    (CreateWideColorCtxMode worldAllFail WIDECOLOR_MODE.P3_R8G8B8A8_REV
      initState initResources).2.1 = initState ∧
    (CreateWideColorCtxMode worldAllFail WIDECOLOR_MODE.P3_R8G8B8A8_REV
      initState initResources).2.2.liveCtxs = initResources.liveCtxs ∧
    (CreateWideColorCtxMode worldAllFail WIDECOLOR_MODE.P3_R8G8B8A8_REV
      initState initResources).2.2.liveSurfs = initResources.liveSurfs :=
  tryCreate_failure_rolls_back worldAllFail WIDECOLOR_MODE.P3_R8G8B8A8_REV
    initState initResources rfl rfl (by decide)

/-! ## C3 -/

/-- C3: the best-effort entry point succeeds exactly when some mode of the
    selected ranked chain succeeds (stopping at the first success); every
    selected chain ends with the legacy mode SRGBA_R8G8B8A8_REV, so it
    returns false only when TryCreate on the legacy mode also fails. -/
theorem createBestEffort_fallback_chain (w : EGLWorld)
    (s : DisplayContextState) (r : EGLResources) :
    (CreateWideColorCtxAuto w s r).1 = (selectedChain w).any (tryCreateSucceeds w) ∧
    (selectedChain w).getLast? = some WIDECOLOR_MODE.SRGBA_R8G8B8A8_REV ∧
    ((CreateWideColorCtxAuto w s r).1 = false →
      tryCreateSucceeds w WIDECOLOR_MODE.SRGBA_R8G8B8A8_REV = false) := by
  have h1 : (CreateWideColorCtxAuto w s r).1
      = (selectedChain w).any (tryCreateSucceeds w) := by
    unfold CreateWideColorCtxAuto selectedChain
    split_ifs with hp hq
    · exact tryModes_bool w passthruModes _ _
    · rw [createMode_bool]
      simp
    · exact tryModes_bool w defaultModes _ _
  refine ⟨h1, ?_, ?_⟩
  · unfold selectedChain
    split_ifs <;> rfl
  · intro hfail
    rw [h1, List.any_eq_false] at hfail
    rw [Bool.eq_false_iff]
    intro htrue
    refine hfail WIDECOLOR_MODE.SRGBA_R8G8B8A8_REV ?_ htrue
    unfold selectedChain
    split_ifs <;> simp [passthruModes, defaultModes]

/-- Witness for C3: on a platform where everything fails, the best-effort
    creation returns false and indeed the legacy attempt failed. -/
theorem createBestEffort_fallback_chain_witness :
    tryCreateSucceeds worldAllFail WIDECOLOR_MODE.SRGBA_R8G8B8A8_REV = false :=
  (createBestEffort_fallback_chain worldAllFail initState initResources).2.2 (by decide)

/-! ## C4 -/

/-- Destroy is a no-op once the display handle holds its closed sentinel. -/
theorem destroy_noop (s : DisplayContextState) (r : EGLResources)
    (hd : s.display_ = 0) : DestroyWideColorCtx s r = (s, r) := by
  unfold DestroyWideColorCtx
  rw [if_pos hd]

/-- Destroy on an open display resets the handles and classification fields
    (but keeps the render-target size fields). -/
theorem destroy_resets_fields (s : DisplayContextState) (r : EGLResources)
    (hd : ¬ s.display_ = 0) :
    (DestroyWideColorCtx s r).1 =
      { s with display_ := 0, eglContext_ := 0, surface_ := 0,
               dispColorSpace_ := DISPLAY_COLORSPACE.INVALID,
               dispFormat_ := DISPLAY_FORMAT.INVALID_FORMAT } := by
  unfold DestroyWideColorCtx
  rw [if_neg hd]

/-- C4 counterexample: DestroyWideColorCtx does not reset the render-target
    size; two live states differing only in renderTargetWidth_ destroy to
    states that still differ there, so that field is not restored to any
    fixed uninitialized sentinel value. -/
theorem destroy_keeps_render_size :
    (DestroyWideColorCtx
      (⟨1, 5, 7, DISPLAY_COLORSPACE.P3, DISPLAY_FORMAT.RGBA_FP16, 640, 480⟩ :
        DisplayContextState) initResources).1.renderTargetWidth_ ≠
    (DestroyWideColorCtx
      (⟨1, 5, 7, DISPLAY_COLORSPACE.P3, DISPLAY_FORMAT.RGBA_FP16, 641, 480⟩ :
        DisplayContextState) initResources).1.renderTargetWidth_ := by
  decide

/-- C4 (amended): DestroyWideColorCtx is idempotent — a no-op when the
    display already holds its closed sentinel, and otherwise it resets
    display, context, surface, currentColorSpace and currentPixelFormat to
    their sentinels while leaving renderTargetWidth_/renderTargetHeight_
    unchanged, so a second call changes nothing. -/
theorem destroy_idempotent_and_resets (s : DisplayContextState)
    (r : EGLResources) :
    DestroyWideColorCtx (DestroyWideColorCtx s r).1 (DestroyWideColorCtx s r).2
      = DestroyWideColorCtx s r ∧
    (s.display_ = 0 → DestroyWideColorCtx s r = (s, r)) ∧
    (s.display_ ≠ 0 →
      (DestroyWideColorCtx s r).1 =
        { s with display_ := 0, eglContext_ := 0, surface_ := 0,
                 dispColorSpace_ := DISPLAY_COLORSPACE.INVALID,
                 dispFormat_ := DISPLAY_FORMAT.INVALID_FORMAT }) := by
  refine ⟨?_, fun hd => destroy_noop s r hd, fun hd => destroy_resets_fields s r hd⟩
  by_cases hd : s.display_ = 0
  · rw [destroy_noop s r hd]
    exact destroy_noop s r hd
  · have h1 : (DestroyWideColorCtx s r).1.display_ = 0 := by
      rw [destroy_resets_fields s r hd]
    rw [destroy_noop _ _ h1]

/-- Witness for the amended C4 at a fully live concrete state. -/
theorem destroy_idempotent_and_resets_witness :
    (DestroyWideColorCtx
      (⟨1, 5, 7, DISPLAY_COLORSPACE.P3, DISPLAY_FORMAT.RGBA_FP16, 640, 480⟩ :
        DisplayContextState) initResources).1 =
      (⟨0, 0, 0, DISPLAY_COLORSPACE.INVALID, DISPLAY_FORMAT.INVALID_FORMAT,
        640, 480⟩ : DisplayContextState) :=
  (destroy_idempotent_and_resets
    (⟨1, 5, 7, DISPLAY_COLORSPACE.P3, DISPLAY_FORMAT.RGBA_FP16, 640, 480⟩ :
      DisplayContextState) initResources).2.2 (by decide)

/-! ## C5 -/

/-- A torn-down state satisfies the claimed invariant. -/
theorem uninit_invariant {s : DisplayContextState} (h : UninitCtx s) :
    WCInvariant s := by
  obtain ⟨h1, h2, h3, h4⟩ := h
  exact ⟨by rw [h1, h2], fun _ => ⟨h3, h4⟩⟩

/-- A single creation attempt started from a torn-down state ends in a state
    satisfying the invariant. -/
theorem createMode_invariant (w : EGLWorld) (m : WIDECOLOR_MODE)
    (s : DisplayContextState) (r : EGLResources) (hu : UninitCtx s) :
    WCInvariant (CreateWideColorCtxMode w m s r).2.1 := by
  cases hb : (CreateWideColorCtxMode w m s r).1 with
  | false =>
    have hfix := createMode_fail_aux w m s r hu.1 hu.2.1 hb
    rw [hfix.1]
    exact uninit_invariant hu
  | true =>
    have hok := createMode_success_aux w m s r hb
    exact ⟨iff_of_false hok.1 hok.2, fun hsurf => absurd hsurf hok.2⟩

/-- The fallback loop started from a torn-down state ends in a state
    satisfying the invariant. -/
theorem tryModes_invariant (w : EGLWorld) (ms : List WIDECOLOR_MODE) :
    ∀ (s : DisplayContextState) (r : EGLResources),
      UninitCtx s → WCInvariant (tryModes w ms s r).2.1 := by
  induction ms with
  | nil => intro s r hu; exact uninit_invariant hu
  | cons m rest ih =>
    intro s r hu
    unfold tryModes
    dsimp only
    cases hb : (CreateWideColorCtxMode w m s r).1 with
    | true =>
      simp only [hb, if_true]
      exact createMode_invariant w m s r hu
    | false =>
      simp only [hb, Bool.false_eq_true, if_false]
      have hfix := createMode_fail_aux w m s r hu.1 hu.2.1 hb
      rw [hfix.1]
      exact ih _ _ hu

/-- The best-effort entry point started from a torn-down state ends in a
    state satisfying the invariant. -/
theorem createAuto_invariant (w : EGLWorld) (s : DisplayContextState)
    (r : EGLResources) (hu : UninitCtx s) :
    WCInvariant (CreateWideColorCtxAuto w s r).2.1 := by
  have hu0 : UninitCtx { s with display_ := w.displayHandle } := hu
  unfold CreateWideColorCtxAuto
  dsimp only
  split_ifs
  · exact tryModes_invariant w passthruModes _ r hu0
  · exact createMode_invariant w WIDECOLOR_MODE.SRGBA_R8G8B8A8_REV _ r hu0
  · exact tryModes_invariant w defaultModes _ r hu0

/-- C5 counterexample: the claimed invariant is not preserved by arbitrary
    sequences of the public operations.  After a successful best-effort
    creation, invoking TryCreate again on a platform whose context creation
    fails stores the sentinel into the context field while the surface field
    still holds the live surface handle of the first creation. -/
theorem recreate_breaks_invariant :
    recreateAttemptState.eglContext_ = 0 ∧
    recreateAttemptState.surface_ ≠ 0 ∧
    ¬ WCInvariant recreateAttemptState := by
  refine ⟨by decide, by decide, ?_⟩
  intro hinv
  have hzero : recreateAttemptState.eglContext_ = 0 := by decide
  have hsurf : recreateAttemptState.surface_ = 0 := hinv.1.mp hzero
  exact absurd hsurf (by decide)

/-- C5 (amended): the invariant — context and surface handles both sentinels
    or both valid, and colorspace/format INVALID unless a surface is live —
    holds in every state reachable through the public operations under the
    intended lifecycle discipline, i.e. when each creation entry point is
    invoked only on a torn-down engine (fresh, or after Destroy). -/
theorem lifecycle_states_satisfy_invariant (s : DisplayContextState)
    (r : EGLResources) (h : ReachableLifecycle s r) : WCInvariant s := by
  induction h with
  | init => exact uninit_invariant ⟨rfl, rfl, rfl, rfl⟩
  | destroy s r hr ih =>
    by_cases hd : s.display_ = 0
    · rw [destroy_noop s r hd]
      exact ih
    · rw [destroy_resets_fields s r hd]
      exact ⟨by simp, fun _ => ⟨rfl, rfl⟩⟩
  | tryCreate w m s r hr hu ih => exact createMode_invariant w m s r hu
  | bestEffort w s r hr hu ih => exact createAuto_invariant w s r hu

/-- Witness for the amended C5: the state after one disciplined TryCreate
    from the fresh engine satisfies the invariant. -/
theorem lifecycle_states_satisfy_invariant_witness :
    WCInvariant (CreateWideColorCtxMode worldCtxFailOn1010102
      WIDECOLOR_MODE.P3_R8G8B8A8_REV initState initResources).2.1 :=
  lifecycle_states_satisfy_invariant _ _
    (ReachableLifecycle.tryCreate worldCtxFailOn1010102
      WIDECOLOR_MODE.P3_R8G8B8A8_REV initState initResources
      ReachableLifecycle.init ⟨rfl, rfl, rfl, rfl⟩)
